import Mathlib

/-!
Verification of the Log Classification and Normalization Engine

A shallow embedding of `src/backend/agents/agent_a_reader.py` (data model,
rule table, classifier, timestamp normalizer, record parser, service-origin
inferencer, result aggregator, JSONL dump), together with proofs of the
specification's claims about it.

Python floats are modelled as rationals (`ℚ`); Python strings as Lean
`String`; Python dicts as association lists in insertion order.  The regular
expressions of the rule table use only literals, alternation, the classes
`.`, `\d`, `\s`, repetition of a single class, and the word boundary `\b`;
they are embedded into a small executable matcher (`RE`, `reSearch`) that
performs the same case-insensitive `re.search` the source performs.
-/

namespace AgentA

/-- ASCII lower-casing of one character, as Python's `str.lower` and
`re.IGNORECASE` behave on the ASCII text the rule table uses. -/
def lowerChar (c : Char) : Char :=
  if 'A' ≤ c ∧ c ≤ 'Z' then Char.ofNat (c.toNat + 32) else c

/-- A character class: `.` (any char except newline), `\d`, `\s`, or a
single literal character (matched case-insensitively, as every pattern in
the source carries `re.I`). -/
inductive CC where
  | anyc
  | digit
  | space
  | ch (c : Char)
deriving DecidableEq

/-- Regular expressions as used by the source's rule table: empty string,
a character class, the word boundary `\b`, concatenation, alternation, and
Kleene star of a character class (`.*`, `\d*`, `\s*`). -/
inductive RE where
  | eps
  | cls (c : CC)
  | wordB
  | seq (a b : RE)
  | alt (a b : RE)
  | star (c : CC)
deriving DecidableEq

/-- Does a character fall in a character class?  `.` excludes the newline
(the source does not set `re.DOTALL`); `\s` is Python's ASCII whitespace. -/
def ccMatch : CC → Char → Bool
  | CC.anyc, x => x != Char.ofNat 10
  | CC.digit, x => x.isDigit
  | CC.space, x =>
      x == ' ' || x == Char.ofNat 9 || x == Char.ofNat 10 ||
      x == Char.ofNat 13 || x == Char.ofNat 11 || x == Char.ofNat 12
  | CC.ch c, x => lowerChar x == lowerChar c

/-- Python's `\w` on the ASCII range: letters, digits, underscore. -/
def isWordChar (c : Char) : Bool := c.isAlphanum || c == '_'

/-- Word-character test of the character preceding the current position
(`none` at the start of the haystack). -/
def wordOpt : Option Char → Bool
  | none => false
  | some c => isWordChar c

/-- Word-character test of the character at the current position. -/
def headWord : List Char → Bool
  | [] => false
  | c :: _ => isWordChar c

/-- Word boundary `\b`: the position between `p` (previous character) and the remaining
input is a word boundary. -/
def atBoundary (p : Option Char) (cs : List Char) : Bool :=
  wordOpt p != headWord cs

/-- All ways `c*` can consume a prefix of the input; each result is the
pair (last consumed character, remaining input). -/
def starMatch (c : CC) : Option Char → List Char → List (Option Char × List Char)
  | p, [] => [(p, [])]
  | p, x :: cs =>
      (p, x :: cs) :: (if ccMatch c x then starMatch c (some x) cs else [])

/-- All ways `r` can match a prefix of the input, with the character
preceding the current position tracked for `\b`. -/
def reMatch : RE → Option Char → List Char → List (Option Char × List Char)
  | RE.eps, p, cs => [(p, cs)]
  | RE.cls _, _, [] => []
  | RE.cls c, _, x :: cs => if ccMatch c x then [(some x, cs)] else []
  | RE.wordB, p, cs => if atBoundary p cs then [(p, cs)] else []
  | RE.seq a b, p, cs =>
      (reMatch a p cs).foldr (fun pc acc => reMatch b pc.1 pc.2 ++ acc) []
  | RE.alt a b, p, cs => reMatch a p cs ++ reMatch b p cs
  | RE.star c, p, cs => starMatch c p cs

/-- Try to match `r` at the current position or at any later one. -/
def searchAux (r : RE) : Option Char → List Char → Bool
  | p, [] => !(reMatch r p []).isEmpty
  | p, x :: cs => !(reMatch r p (x :: cs)).isEmpty || searchAux r (some x) cs

/-- Embedded `re.search`: does `r` match anywhere in `s`? -/
def reSearch (r : RE) (s : String) : Bool :=
  searchAux r none s.toList

/-- A literal string pattern. -/
def lit (s : String) : RE :=
  s.toList.foldr (fun c r => RE.seq (RE.cls (CC.ch c)) r) RE.eps

/-- Alternation `a|b|c|...` over a non-empty list of alternatives. -/
def alts : List RE → RE
  | [] => RE.eps
  | [r] => r
  | r :: rs => RE.alt r (alts rs)

/-- Pattern `\b(a|b|...)\b` — the word-bounded alternative group the rule table
uses repeatedly. -/
def grpB (rs : List RE) : RE :=
  RE.seq RE.wordB (RE.seq (alts rs) RE.wordB)

/-- Pattern `\d\x7b2\x7d`. -/
def d2 : RE := RE.seq (RE.cls CC.digit) (RE.cls CC.digit)

/-- Pattern `\d+`. -/
def digits1 : RE := RE.seq (RE.cls CC.digit) (RE.star CC.digit)

/-! ## Data model (`LogRecord`, `Finding`, `Rule`) -/

/-- JSON values, as `json.loads` produces them.  Python's `bool` is a
subclass of `int`, which matters to `_coerce_ts`; we keep it as its own
constructor and translate it where the source does `isinstance` checks. -/
inductive JValue where
  | null
  | bool (b : Bool)
  | num (q : ℚ)
  | str (s : String)
  | arr (xs : List JValue)
  | obj (fields : List (String × JValue))

/-- The `LogRecord` of the source: normalized timestamp (epoch seconds),
message text, source tag, optional inferred service hint, and the original
structured payload. -/
structure LogRecord where
  ts : ℚ
  message : String
  source : String
  service_hint : Option String
  raw : List (String × JValue)

/-- The `Finding` of the source.  `meta` is the free-form map; the classifier
only ever stores the single key `"rule"` in it. -/
structure Finding where
  ts : ℚ
  category : String
  severity : String
  probable_cause : String
  remediation_hint : String
  confidence : ℚ
  source : String
  service : Option String
  message_excerpt : String
  meta : List (String × String)
deriving DecidableEq

/-- The `Rule` of the source's rule engine. -/
structure Rule where
  name : String
  pattern : RE
  category : String
  severity : String
  probable_cause : String
  remediation_hint : String
  confidence : ℚ
  service_bias : Option String
deriving DecidableEq

/-! ## The default rule table

Each `pattern` below is the `re.compile(..., re.I)` pattern of
`DEFAULT_RULES` in the source, written in the `RE` syntax above.  All
patterns carry `re.I`, reflected by the case-insensitive `CC.ch` matching. -/

def DEFAULT_RULES : List Rule := [
  -- IAM / AuthZ
  { name := "iam_access_denied",
    pattern := grpB [lit "AccessDenied", lit "NotAuthorized", lit "Unauthorized",
                     lit "User is not authorized", lit "AuthorizationError"],
    category := "iam_access_denied", severity := "high",
    probable_cause := "Request blocked by IAM/authorization policy.",
    remediation_hint := "fix_iam_policy", confidence := (95 / 100 : ℚ), service_bias := none },
  -- Throttling / Rate / Capacity
  { name := "throttling",
    pattern := grpB [lit "ThrottlingException", lit "Rate exceeded",
                     lit "Too Many Requests", RE.seq (lit "429") RE.wordB,
                     lit "ProvisionedThroughputExceededException"],
    category := "throttling", severity := "medium",
    probable_cause := "Service is throttling due to rate/capacity limits.",
    remediation_hint := "retry_with_backoff_or_scale", confidence := (9 / 10 : ℚ), service_bias := none },
  -- HTTP 5xx
  { name := "http_5xx",
    pattern := RE.seq RE.wordB (RE.seq (RE.seq (lit "5") d2)
      (RE.seq RE.wordB (RE.seq (RE.star CC.anyc)
        (grpB [lit "error", lit "server error", lit "bad gateway",
               lit "gateway timeout", lit "internal server error"])))),
    category := "http_5xx", severity := "high",
    probable_cause := "Backend error surfaced as HTTP 5xx.",
    remediation_hint := "check_dependency_and_scale", confidence := (85 / 100 : ℚ), service_bias := none },
  { name := "http_5xx_compact",
    pattern := RE.alt
      (RE.seq (lit "\"status\"") (RE.seq (RE.star CC.space)
        (RE.seq (lit ":") (RE.seq (RE.star CC.space) (RE.seq (lit "5") d2)))))
      (RE.seq RE.wordB (RE.seq (lit "HTTP/1.") (RE.seq (RE.cls CC.digit)
        (RE.seq (lit "\" 5") (RE.seq d2 RE.wordB))))),
    category := "http_5xx", severity := "high",
    probable_cause := "Backend error surfaced as HTTP 5xx.",
    remediation_hint := "check_dependency_and_scale", confidence := (8 / 10 : ℚ), service_bias := none },
  -- Lambda
  { name := "lambda_timeout",
    pattern := RE.alt
      (RE.seq (lit "Task timed out after ") (RE.seq digits1
        (RE.seq (RE.cls CC.anyc) (RE.seq digits1 (lit " seconds")))))
      (lit "timed out"),
    category := "lambda_timeout", severity := "high",
    probable_cause := "Lambda exceeded configured timeout.",
    remediation_hint := "increase_timeout_or_optimize", confidence := (9 / 10 : ℚ), service_bias := some "lambda" },
  { name := "lambda_oom",
    pattern := grpB [lit "OutOfMemory", lit "MemoryError"],
    category := "lambda_oom", severity := "high",
    probable_cause := "Lambda ran out of memory.",
    remediation_hint := "increase_memory_or_optimize", confidence := (9 / 10 : ℚ), service_bias := some "lambda" },
  { name := "lambda_init_error",
    pattern := RE.alt
      (RE.seq (lit "Init") (RE.seq (RE.alt (lit "ialization") RE.eps) (lit " error")))
      (lit "Unhandled exception"),
    category := "lambda_init_error", severity := "medium",
    probable_cause := "Lambda init/unhandled exception.",
    remediation_hint := "fix_code_or_dependencies", confidence := (7 / 10 : ℚ), service_bias := some "lambda" },
  -- Container / K8s / ECS
  { name := "container_crashloop",
    pattern := RE.alt (lit "CrashLoopBackOff") (lit "Back-off restarting failed container"),
    category := "container_crashloop", severity := "high",
    probable_cause := "Container restarting repeatedly.",
    remediation_hint := "inspect_pod_logs_fix_crash", confidence := (95 / 100 : ℚ), service_bias := some "eks" },
  { name := "image_pull_error",
    pattern := alts [lit "ImagePullBackOff", lit "ErrImagePull", lit "CannotPullContainerError"],
    category := "image_pull_error", severity := "high",
    probable_cause := "Image pull failed (auth/tag/network).",
    remediation_hint := "fix_image_or_registry_access", confidence := (95 / 100 : ℚ), service_bias := none },
  { name := "oom_killed",
    pattern := grpB [lit "OOMKilled"],
    category := "oom_killed", severity := "high",
    probable_cause := "Container killed due to OOM.",
    remediation_hint := "increase_memory_or_optimize", confidence := (9 / 10 : ℚ), service_bias := none },
  -- Data Stores
  { name := "dynamodb_conditional",
    pattern := lit "ConditionalCheckFailedException",
    category := "dynamodb_conditional", severity := "low",
    probable_cause := "DynamoDB conditional write failed (app logic).",
    remediation_hint := "handle_expected_failure_or_retry", confidence := (8 / 10 : ℚ), service_bias := some "dynamodb" },
  { name := "rds_lock_wait",
    pattern := RE.alt (lit "deadlock found") (lit "lock wait timeout"),
    category := "rds_lock_contention", severity := "medium",
    probable_cause := "RDS lock contention or deadlock.",
    remediation_hint := "optimize_queries_or_isolation", confidence := (7 / 10 : ℚ), service_bias := some "rds" },
  { name := "rds_connections",
    pattern := lit "too many connections",
    category := "rds_too_many_connections", severity := "high",
    probable_cause := "RDS connection limit exceeded.",
    remediation_hint := "use_pooling_or_increase_limit", confidence := (85 / 100 : ℚ), service_bias := some "rds" },
  -- S3
  { name := "s3_access_denied",
    pattern := alts [RE.seq (lit "S3") (RE.seq (RE.star CC.anyc) (lit "AccessDenied")),
                     lit "NoSuchBucket", lit "SignatureDoesNotMatch"],
    category := "s3_access_error", severity := "high",
    probable_cause := "S3 access/signature/bucket error.",
    remediation_hint := "verify_bucket_policy_and_credentials", confidence := (9 / 10 : ℚ), service_bias := some "s3" },
  { name := "s3_slowdown",
    pattern := grpB [lit "SlowDown"],
    category := "s3_slowdown", severity := "low",
    probable_cause := "S3 throttling/slowdown response.",
    remediation_hint := "retry_with_backoff", confidence := (7 / 10 : ℚ), service_bias := some "s3" },
  -- API Gateway
  { name := "apigw_timeout",
    pattern := RE.alt (lit "Endpoint request timed out")
                      (lit "Execution failed due to configuration error"),
    category := "apigw_timeout", severity := "medium",
    probable_cause := "API Gateway integration timeout/config error.",
    remediation_hint := "increase_timeout_or_fix_integration", confidence := (8 / 10 : ℚ), service_bias := some "apigw" },
  -- Networking / VPC
  { name := "dns_or_network",
    pattern := alts [lit "NameResolutionFailure", lit "ENETUNREACH", lit "ECONNRESET",
                     lit "connection reset by peer", lit "connection refused", lit "i/o timeout"],
    category := "network_error", severity := "medium",
    probable_cause := "Network/DNS connectivity problem.",
    remediation_hint := "repair_networking_or_retries", confidence := (75 / 100 : ℚ), service_bias := none }
]

/-- Table `SERVICE_HINTS` of the source: the ordered (tag, pattern) table of the
service-origin inferencer. -/
def SERVICE_HINTS : List (String × RE) := [
  ("lambda", alts [lit "/aws/lambda/", lit "REPORT RequestId", lit "Init Duration"]),
  ("apigw", alts [lit "/aws/apigateway/", lit "Method request", lit "Integration request"]),
  ("alb", alts [lit "ELB-HealthChecker", RE.seq (lit "http 5") d2, lit "request_processing_time"]),
  ("ecs", RE.alt (lit "/aws/ecs/") (lit "ecs")),
  ("eks", alts [lit "kubelet", lit "pod", lit "container", lit "CrashLoopBackOff",
                lit "ImagePullBackOff", lit "OOMKilled"]),
  ("s3", lit "s3"),
  ("dynamodb", lit "dynamodb"),
  ("rds", alts [lit "rds", lit "mysql", lit "postgres"])
]

/-- Python `str.lower` on the haystack (ASCII, as used here). -/
def strLower (s : String) : String := String.mk (s.toList.map lowerChar)

/-- The first-match loop of `_infer_service_hint`. -/
def hintSearch : List (String × RE) → String → Option String
  | [], _ => none
  | (service, rx) :: rest, hay =>
      if reSearch rx hay then some service else hintSearch rest hay

/-- Function `_infer_service_hint(source, message)` of the source. -/
def infer_service_hint (source message : String) : Option String :=
  hintSearch SERVICE_HINTS (strLower (source ++ " " ++ message))

/-! ## Timestamp normalizer (`_coerce_ts`) -/

/-- Function `_coerce_ts(ts_like)` of the source.  The two string-parsing attempts
(`datetime.fromisoformat(... .replace("Z", "+00:00")).timestamp()` and
`float(...)`), which are library calls, are passed in as the abstract
partial functions `parseIso` and `parseFloat`; a `none` result stands for
the `except` branch.  A JSON `true`/`false` reaches the numeric branch
because Python's `bool` is an `int`; neither exceeds `1e10`, so it is
returned as `1.0`/`0.0`. -/
def coerce_ts (parseIso parseFloat : String → Option ℚ) : JValue → Option ℚ
  | JValue.null => none
  | JValue.bool b => some (if b then 1 else 0)
  | JValue.num q =>
      if q > 1000000000000 ∨ q > 10000000000 then some (q / 1000) else some q
  | JValue.str s =>
      match parseIso (s.replace "Z" "+00:00") with
      | some t => some t
      | none => parseFloat s
  | JValue.arr _ => none
  | JValue.obj _ => none

/-! ## Record parser (`parse_log_line`) -/

/-- Python `line.strip("\n")`: remove leading and trailing newline characters. -/
def stripNL (s : String) : String :=
  String.mk (((s.toList.dropWhile (fun c => c == Char.ofNat 10)).reverse.dropWhile
    (fun c => c == Char.ofNat 10)).reverse)

/-- Python `msg.startswith` on the opening brace. -/
def startsWithBrace (s : String) : Bool :=
  match s.toList with
  | [] => false
  | c :: _ => c == Char.ofNat 123

/-- Python `msg.endswith` on the closing brace. -/
def endsWithBrace (s : String) : Bool :=
  match s.toList.getLast? with
  | some c => c == Char.ofNat 125
  | none => false

/-- The prioritized timestamp field names searched by `parse_log_line`. -/
def TS_KEYS : List String := ["timestamp", "ts", "time", "@timestamp", "eventTime"]

/-- The prioritized message field names searched by `parse_log_line`. -/
def MSG_KEYS : List String := ["message", "msg", "log", "@message"]

/-- Python `key in raw` / `raw[key]` on the decoded JSON object. -/
def jLookup (raw : List (String × JValue)) (k : String) : Option JValue :=
  (raw.find? (fun p => p.1 == k)).map Prod.snd

/-- Python truthiness of the `ts` variable (`None` and `0.0` are falsy). -/
def tsTruthy : Option ℚ → Bool
  | none => false
  | some q => q != 0

/-- The timestamp search loop of `parse_log_line`: for each key in order,
if the key is present, assign `ts = _coerce_ts(raw[key])` and stop as soon
as `ts` is truthy. -/
def tsLoop (coerce : JValue → Option ℚ) (raw : List (String × JValue)) :
    List String → Option ℚ → Option ℚ
  | [], ts => ts
  | k :: ks, ts =>
      match jLookup raw k with
      | none => tsLoop coerce raw ks ts
      | some v =>
          let t := coerce v
          if tsTruthy t then t else tsLoop coerce raw ks t

/-- The message search loop of `parse_log_line`: the first key present
with a string value wins; keys with non-string values are skipped. -/
def msgLoop (raw : List (String × JValue)) : List String → Option String
  | [] => none
  | k :: ks =>
      match jLookup raw k with
      | some (JValue.str s) => some s
      | _ => msgLoop raw ks

/-- Assignment `raw = obj if isinstance(obj, dict) else (a synthetic single-key dict)`. -/
def objToRaw : JValue → List (String × JValue)
  | JValue.obj fields => fields
  | v => [("_", v)]

/-- Function `parse_log_line(line)` of the source, returning `(ts, msg, raw)`.
`decode` abstracts `json.loads` restricted to this call site (`none`
standing for its `except` branch), `parseIso`/`parseFloat` are as in
`coerce_ts`, and `now` is the value `_now()` would return, passed in so
the function stays pure. -/
def parse_log_line (decode : String → Option JValue)
    (parseIso parseFloat : String → Option ℚ) (now : ℚ) (line : String) :
    ℚ × String × List (String × JValue) :=
  let msg0 := stripNL line
  if startsWithBrace msg0 && endsWithBrace msg0 then
    match decode msg0 with
    | some j =>
        let raw := objToRaw j
        let ts := tsLoop (coerce_ts parseIso parseFloat) raw TS_KEYS none
        let msg := (msgLoop raw MSG_KEYS).getD msg0
        (ts.getD now, msg, raw)
    | none => (now, msg0, [("raw", JValue.str msg0)])
  else
    (now, msg0, [])

/-- The value the `ts` variable of `parse_log_line` holds right before the
`if ts is None` default: `none` exactly when no timestamp was resolved. -/
def tsResolved (decode : String → Option JValue)
    (parseIso parseFloat : String → Option ℚ) (line : String) : Option ℚ :=
  let msg0 := stripNL line
  if startsWithBrace msg0 && endsWithBrace msg0 then
    match decode msg0 with
    | some j => tsLoop (coerce_ts parseIso parseFloat) (objToRaw j) TS_KEYS none
    | none => none
  else none

/-! ## Classifier (`agent_a_reader._classify`) -/

/-- Python truthiness of an optional string (`None` and `""` are falsy). -/
def truthyStr : Option String → Bool
  | none => false
  | some s => s != ""

/-- Python `a or b` on optional strings. -/
def pyOr (a b : Option String) : Option String :=
  if truthyStr a then a else b

/-- The confidence computation of `_classify`: the rule's base confidence,
plus `(5 / 100 : ℚ)` capped at `1.0` when the rule's (truthy) `service_bias` equals
the record's `service_hint`. -/
def ruleConfidence (rule : Rule) (rec : LogRecord) : ℚ :=
  if truthyStr rule.service_bias ∧ rec.service_hint = rule.service_bias then
    min 1 (rule.confidence + (5 / 100 : ℚ))
  else rule.confidence

/-- The `Finding` constructed by `_classify` for a matching rule. -/
def mkFinding (rule : Rule) (rec : LogRecord) : Finding :=
  { ts := rec.ts
    category := rule.category
    severity := rule.severity
    probable_cause := rule.probable_cause
    remediation_hint := rule.remediation_hint
    confidence := ruleConfidence rule rec
    source := rec.source
    service := pyOr rec.service_hint rule.service_bias
    message_excerpt := rec.message.take 500
    meta := [("rule", rule.name)] }

/-- The fallback `Finding` emitted when no rule matched. -/
def fallbackFinding (rec : LogRecord) : Finding :=
  { ts := rec.ts
    category := "runbook"
    severity := "low"
    probable_cause := "Unclassified log event."
    remediation_hint := "manual_triage"
    confidence := (3 / 10 : ℚ)
    source := rec.source
    service := rec.service_hint
    message_excerpt := rec.message.take 500
    meta := [("rule", "none")] }

/-- Method `agent_a_reader._classify(rec)`: one `Finding` per rule whose pattern
matches the message, in rule order; the fallback `Finding` when none do. -/
def classify (rules : List Rule) (rec : LogRecord) : List Finding :=
  let matched := rules.filterMap (fun rule =>
    if reSearch rule.pattern rec.message then some (mkFinding rule rec) else none)
  if matched.isEmpty then [fallbackFinding rec] else matched

/-! ## Result aggregator (`_summarize`) -/

/-- Python `m.get(k, 0)` on a dict modelled as an insertion-ordered
association list. -/
def dictGet (m : List (String × Nat)) (k : String) : Nat :=
  match m.find? (fun p => p.1 == k) with
  | some p => p.2
  | none => 0

/-- Python `m[k] = m.get(k, 0) + 1`: update in place if present, append if not. -/
def dictIncr (m : List (String × Nat)) (k : String) : List (String × Nat) :=
  if m.any (fun p => p.1 == k) then
    m.map (fun p => if p.1 == k then (p.1, p.2 + 1) else p)
  else m ++ [(k, 1)]

/-- Function `_summarize(findings)`: the `(by_category, by_severity)` count dicts,
built in one pass over the findings. -/
def summarize (findings : List Finding) : List (String × Nat) × List (String × Nat) :=
  findings.foldl (fun acc fi => (dictIncr acc.1 fi.category, dictIncr acc.2 fi.severity)) ([], [])

/-- Python `sum(m.values())`. -/
def sumVals (m : List (String × Nat)) : Nat := (m.map Prod.snd).sum

/-! ## JSONL dump (`dump_findings_jsonl`) -/

/-- Method `dump_findings_jsonl(findings, path)` of the source, modelled as the
full string written to the file.  `serializeFinding` abstracts
`json.dumps(fi.to_dict(), ensure_ascii=False)`.  Note: the source appends
the two-character sequence `\` `n` (its line 316 reads `+ "\\n"`), not a
newline; the model reproduces that faithfully. -/
def dump_findings_jsonl (serializeFinding : Finding → String)
    (findings : List Finding) : String :=
  String.join (findings.map (fun fi => serializeFinding fi ++ "\\n"))

/-! ## Concrete inputs used by the claim theorems and witnesses -/

/-- A record whose message triggers both the authorization-denial rule and
the throttling rule. -/
def recMulti : LogRecord :=
  { ts := 1, message := "AccessDenied: Rate exceeded", source := "file:x",
    service_hint := none, raw := [] }

/-- A record whose message matches no rule of the default table. -/
def recHello : LogRecord :=
  { ts := 1, message := "hello", source := "file:x", service_hint := none, raw := [] }

/-- A rule with `baseConfidence = 1.0` and a service bias; `(0,1]` permits
this value, and on it the `+0.05` boost is fully absorbed by the `1.0`
cap. -/
def ruleCx : Rule :=
  { name := "biased", pattern := lit "x", category := "cat", severity := "high",
    probable_cause := "pc", remediation_hint := "rh", confidence := 1,
    service_bias := some "lambda" }

/-- The same rule with `baseConfidence = 0.9`. -/
def ruleW : Rule := { ruleCx with confidence := 9 / 10 }

/-- A record matching `ruleCx` whose service hint equals the rule's bias. -/
def recHint : LogRecord :=
  { ts := 0, message := "x", source := "s", service_hint := some "lambda", raw := [] }

/-- The otherwise-identical record with no service hint. -/
def recNoHint : LogRecord :=
  { ts := 0, message := "x", source := "s", service_hint := none, raw := [] }

/-- A decoded payload whose `timestamp` field normalizes to the falsy
`0.0` and whose later `time` field holds a real epoch value. -/
def decodeZeroThenTime : String → Option JValue :=
  fun _ => some (JValue.obj [("timestamp", JValue.num 0), ("time", JValue.num 1700000000)])

/-- A decoded payload whose only timestamp field normalizes to `0.0`. -/
def decodeZeroOnly : String → Option JValue :=
  fun _ => some (JValue.obj [("timestamp", JValue.num 0)])

/-! ## Helper lemmas -/

/-- A `filterMap` whose function is a boolean guard is a `filter` followed
by a `map`. -/
theorem filterMap_guard {α β : Type} (p : α → Bool) (g : α → β) (l : List α) :
    l.filterMap (fun a => if p a then some (g a) else none) = (l.filter p).map g := by
  induction l with
  | nil => rfl
  | cons a l ih =>
    by_cases h : p a
    · simp [List.filterMap_cons, List.filter_cons, h, ih]
    · simp [List.filterMap_cons, List.filter_cons, h, ih]

/-- Unfolding lemma for `classify`. -/
theorem classify_eq (rules : List Rule) (rec : LogRecord) :
    classify rules rec =
      if (rules.filterMap (fun rule =>
          if reSearch rule.pattern rec.message then some (mkFinding rule rec) else none)).isEmpty
      then [fallbackFinding rec]
      else rules.filterMap (fun rule =>
          if reSearch rule.pattern rec.message then some (mkFinding rule rec) else none) := rfl

/-- The classifier never returns the empty list. -/
theorem classify_ne_nil (rules : List Rule) (rec : LogRecord) :
    classify rules rec ≠ [] := by
  rw [classify_eq]
  split
  · simp
  · rename_i h
    simpa [List.isEmpty_iff] using h

/-- When no rule pattern matches, `_classify` returns exactly the fallback
finding. -/
theorem classify_of_no_match (rules : List Rule) (rec : LogRecord)
    (h : ∀ r ∈ rules, reSearch r.pattern rec.message = false) :
    classify rules rec = [fallbackFinding rec] := by
  rw [classify_eq]
  have hm : rules.filterMap (fun rule =>
      if reSearch rule.pattern rec.message then some (mkFinding rule rec) else none) = [] := by
    rw [List.filterMap_eq_nil_iff]
    intro r hr
    simp [h r hr]
  simp [hm]

/-- When some rule pattern matches, `_classify` returns one finding per
matching rule, in rule order. -/
theorem classify_of_match (rules : List Rule) (rec : LogRecord)
    (h : rules.any (fun r => reSearch r.pattern rec.message) = true) :
    classify rules rec =
      (rules.filter (fun r => reSearch r.pattern rec.message)).map (fun r => mkFinding r rec) := by
  rw [classify_eq, filterMap_guard]
  split
  · rename_i hemp
    exfalso
    rw [List.isEmpty_iff, List.map_eq_nil_iff, List.filter_eq_nil_iff] at hemp
    obtain ⟨r, hr, hp⟩ := List.any_eq_true.mp h
    exact hemp r hr hp
  · rfl

/-- The first-match loop of the inferencer is `List.find?` on the hint
table. -/
theorem hintSearch_eq_find (l : List (String × RE)) (hay : String) :
    hintSearch l hay = (l.find? (fun p => reSearch p.2 hay)).map Prod.fst := by
  induction l with
  | nil => rfl
  | cons p rest ih =>
    obtain ⟨service, rx⟩ := p
    by_cases h : reSearch rx hay
    · simp [hintSearch, List.find?_cons, h]
    · simp [hintSearch, List.find?_cons, h, ih]

/-! ## Claim theorems -/

/-- C1: for every rule table and record, `classify` returns a non-empty
list; and when zero rules match the record's message it returns exactly one
fallback Finding with category `"runbook"` (the unclassified/runbook tag),
severity `"low"`, confidence `0.3`, remediation hint `"manual_triage"`, and
`meta.rule = "none"`. -/
theorem C1_classify_nonempty_and_fallback :
    (∀ (rules : List Rule) (rec : LogRecord), classify rules rec ≠ []) ∧
    (∀ (rules : List Rule) (rec : LogRecord),
      (∀ r ∈ rules, reSearch r.pattern rec.message = false) →
      classify rules rec =
        [{ ts := rec.ts, category := "runbook", severity := "low",
           probable_cause := "Unclassified log event.", remediation_hint := "manual_triage",
           confidence := 3 / 10, source := rec.source, service := rec.service_hint,
           message_excerpt := rec.message.take 500, meta := [("rule", "none")] }]) :=
  ⟨classify_ne_nil, fun rules rec h => classify_of_no_match rules rec h⟩

/-- Witness for C1 at the record `recHello`, which no default rule
matches. -/
theorem C1_witness :
    (∀ r ∈ DEFAULT_RULES, reSearch r.pattern recHello.message = false) ∧
    classify DEFAULT_RULES recHello ≠ [] ∧
    classify DEFAULT_RULES recHello =
      [{ ts := 1, category := "runbook", severity := "low",
         probable_cause := "Unclassified log event.", remediation_hint := "manual_triage",
         confidence := 3 / 10, source := "file:x", service := none,
         message_excerpt := recHello.message.take 500, meta := [("rule", "none")] }] :=
  ⟨by decide, C1_classify_nonempty_and_fallback.1 DEFAULT_RULES recHello,
    C1_classify_nonempty_and_fallback.2 DEFAULT_RULES recHello (by decide)⟩

/-- C2: `classify` checks every rule with no short-circuit, emitting one
Finding per matching rule (tagged `meta.rule` with that rule's name) in
declaration order; a message carrying both an authorization-denial phrase
and a throttling phrase yields two Findings with different categories. -/
theorem C2_all_rules_no_short_circuit :
    (∀ (rules : List Rule) (rec : LogRecord),
      rules.any (fun r => reSearch r.pattern rec.message) = true →
      (classify rules rec).map (fun f => f.meta) =
        (rules.filter (fun r => reSearch r.pattern rec.message)).map
          (fun r => [("rule", r.name)]) ∧
      (classify rules rec).length =
        (rules.filter (fun r => reSearch r.pattern rec.message)).length) ∧
    ((classify DEFAULT_RULES recMulti).map (fun f => f.category) =
        ["iam_access_denied", "throttling"] ∧
      "iam_access_denied" ≠ "throttling") := by
  refine ⟨fun rules rec h => ?_, by decide, by decide⟩
  rw [classify_of_match rules rec h]
  constructor
  · rw [List.map_map]
    rfl
  · rw [List.length_map]

/-- Witness for C2 at the record `recMulti`, whose message holds an
authorization-denial phrase and a throttling phrase. -/
theorem C2_witness :
    DEFAULT_RULES.any (fun r => reSearch r.pattern recMulti.message) = true ∧
    ((classify DEFAULT_RULES recMulti).map (fun f => f.meta) =
      (DEFAULT_RULES.filter (fun r => reSearch r.pattern recMulti.message)).map
        (fun r => [("rule", r.name)]) ∧
    (classify DEFAULT_RULES recMulti).length =
      (DEFAULT_RULES.filter (fun r => reSearch r.pattern recMulti.message)).length) :=
  ⟨by decide, C2_all_rules_no_short_circuit.1 DEFAULT_RULES recMulti (by decide)⟩

/-- C3: on numeric input the timestamp normalizer divides by 1000 exactly
when the value exceeds `1e10` (the `> 1e12` disjunct of the source is
subsumed), and returns the value unchanged otherwise; in particular
`_coerce_ts(1700000000000) = 1700000000.0` and
`_coerce_ts(1700000000) = 1700000000.0`. -/
theorem C3_coerce_ts_numeric :
    (∀ (parseIso parseFloat : String → Option ℚ) (q : ℚ),
      coerce_ts parseIso parseFloat (JValue.num q) =
        some (if 10000000000 < q then q / 1000 else q)) ∧
    coerce_ts (fun _ => none) (fun _ => none) (JValue.num 1700000000000) =
      some 1700000000 ∧
    coerce_ts (fun _ => none) (fun _ => none) (JValue.num 1700000000) =
      some 1700000000 := by
  refine ⟨fun pI pF q => ?_, by simp only [coerce_ts]; norm_num, by simp only [coerce_ts]; norm_num⟩
  simp only [coerce_ts]
  by_cases h : (10000000000 : ℚ) < q
  · rw [if_pos (Or.inr h), if_pos h]
  · have h12 : ¬ (1000000000000 : ℚ) < q := fun hq => h (lt_trans (by norm_num) hq)
    rw [if_neg (by tauto), if_neg h]

/-- C8: the service-origin inferencer lowercases `source ++ " " ++ message`
and returns the tag of the first entry of the fixed `SERVICE_HINTS` table
whose pattern matches, `none` when no pattern matches, and tolerates empty
input. -/
theorem C8_infer_first_hint :
    (∀ (source message : String),
      infer_service_hint source message =
        (SERVICE_HINTS.find? (fun p =>
          reSearch p.2 (strLower (source ++ " " ++ message)))).map Prod.fst) ∧
    (∀ (source message : String),
      (∀ p ∈ SERVICE_HINTS, reSearch p.2 (strLower (source ++ " " ++ message)) = false) →
      infer_service_hint source message = none) ∧
    infer_service_hint "" "" = none ∧
    infer_service_hint "file:app.log" "connect to dynamodb failed" = some "dynamodb" := by
  refine ⟨fun source message => hintSearch_eq_find _ _, fun source message h => ?_, by decide, by decide⟩
  unfold infer_service_hint
  rw [hintSearch_eq_find]
  rw [List.find?_eq_none.mpr (fun p hp => by simp [h p hp])]
  rfl

/-- Witness for C8: the no-match branch applied at empty inputs. -/
theorem C8_witness :
    (∀ p ∈ SERVICE_HINTS, reSearch p.2 (strLower ("" ++ " " ++ "")) = false) ∧
    infer_service_hint "" "" = none :=
  ⟨by decide, C8_infer_first_hint.2.1 "" "" (by decide)⟩

/-- Classification over a single matching rule yields that rule's finding. -/
theorem classify_single (rule : Rule) (rec : LogRecord)
    (h : reSearch rule.pattern rec.message = true) :
    classify [rule] rec = [mkFinding rule rec] := by
  rw [classify_eq]
  simp [h]

/-- Every rule of the default table has base confidence in `(0,1]`. -/
theorem default_conf_bounds :
    ∀ r ∈ DEFAULT_RULES, 0 < r.confidence ∧ r.confidence ≤ 1 := by
  intro r hr
  fin_cases hr <;> norm_num

/-- C4 (counterexample): a rule with `baseConfidence = 1.0` (a value in
`(0,1]`) and a matching service bias yields confidence `min 1 (1 + 0.05)
= 1`, which is not strictly higher than the hint-less confidence `1`; the
claim's strict inequality fails as stated. -/
theorem C4_counterexample :
    ruleCx.service_bias = some "lambda" ∧
    reSearch ruleCx.pattern recHint.message = true ∧
    recHint.service_hint = some "lambda" ∧ recNoHint.service_hint = none ∧
    (classify [ruleCx] recHint).map (fun f => f.confidence) =
      [min 1 (ruleCx.confidence + 5 / 100)] ∧
    (classify [ruleCx] recNoHint).map (fun f => f.confidence) = [ruleCx.confidence] ∧
    ¬ ((mkFinding ruleCx recHint).confidence > (mkFinding ruleCx recNoHint).confidence) := by
  refine ⟨rfl, by decide, rfl, rfl, rfl, rfl, ?_⟩
  show ¬ (min 1 ((1 : ℚ) + 5 / 100) > (1 : ℚ))
  exact not_lt.mpr (min_le_left _ _)

/-- C4 (amended): for a rule with a (non-empty) `serviceBias` and a record
matching it, the emitted confidence is `min 1 (baseConfidence + 0.05)`
when the record's hint equals the bias; with no bias/hint match — the hint
absent or different from the bias — the confidence is exactly
`baseConfidence`; the boosted value is strictly higher whenever
`baseConfidence < 1`. -/
theorem C4_confidence_boost :
    ∀ (rule : Rule) (rec : LogRecord) (b : String),
      rule.service_bias = some b → b ≠ "" → rec.service_hint = some b →
      reSearch rule.pattern rec.message = true →
      (classify [rule] rec).map (fun f => f.confidence) =
        [min 1 (rule.confidence + 5 / 100)] ∧
      (∀ (hint : Option String), hint ≠ rule.service_bias →
        (classify [rule] { rec with service_hint := hint }).map (fun f => f.confidence) =
          [rule.confidence]) ∧
      (classify [rule] { rec with service_hint := none }).map (fun f => f.confidence) =
        [rule.confidence] ∧
      (rule.confidence < 1 → rule.confidence < min 1 (rule.confidence + 5 / 100)) := by
  intro rule rec b hbias hb hhint hmatch
  have hother : ∀ (hint : Option String), hint ≠ rule.service_bias →
      (classify [rule] { rec with service_hint := hint }).map (fun f => f.confidence) =
        [rule.confidence] := by
    intro hint hne
    rw [classify_single rule { rec with service_hint := hint } hmatch]
    simp only [List.map_cons, List.map_nil, mkFinding]
    rw [ruleConfidence, if_neg]
    rintro ⟨-, heq⟩
    exact hne heq
  refine ⟨?_, hother,
    hother none (by rw [hbias]; exact fun h => Option.noConfusion h),
    fun hlt => lt_min hlt (lt_add_of_pos_right _ (by norm_num))⟩
  rw [classify_single rule rec hmatch]
  simp only [List.map_cons, List.map_nil, mkFinding]
  rw [ruleConfidence, if_pos]
  refine ⟨?_, hhint.trans hbias.symm⟩
  rw [hbias]
  simpa [truthyStr] using hb

/-- Witness for C4 at the rule `ruleW` (base confidence `0.9`, bias
`"lambda"`) and the record `recHint`, with its hint-less variant and a
variant carrying the different hint `"s3"`. -/
theorem C4_witness :
    (classify [ruleW] recHint).map (fun f => f.confidence) =
      [min 1 (ruleW.confidence + 5 / 100)] ∧
    (classify [ruleW] { recHint with service_hint := some "s3" }).map (fun f => f.confidence) =
      [ruleW.confidence] ∧
    (classify [ruleW] { recHint with service_hint := none }).map (fun f => f.confidence) =
      [ruleW.confidence] ∧
    ruleW.confidence < min 1 (ruleW.confidence + 5 / 100) := by
  have h := C4_confidence_boost ruleW recHint "lambda" rfl (by decide) rfl (by decide)
  exact ⟨h.1, h.2.1 (some "s3") (by decide), h.2.2.1, h.2.2.2 (by norm_num [ruleW, ruleCx])⟩

/-- C5: with the default rule table, every finding `classify` returns has
confidence strictly greater than `0` and at most `1` (matched rules start
from a base confidence in `(0,1]`, the `+0.05` boost is capped at `1.0`,
and the fallback confidence is `0.3`). -/
theorem C5_confidence_in_unit :
    ∀ (rec : LogRecord), ∀ f ∈ classify DEFAULT_RULES rec,
      0 < f.confidence ∧ f.confidence ≤ 1 := by
  intro rec f hf
  rw [classify_eq] at hf
  split at hf
  · rw [List.mem_singleton] at hf
    subst hf
    constructor <;> norm_num [fallbackFinding]
  · rw [filterMap_guard, List.mem_map] at hf
    obtain ⟨r, hr, rfl⟩ := hf
    rw [List.mem_filter] at hr
    have hb := default_conf_bounds r hr.1
    show 0 < ruleConfidence r rec ∧ ruleConfidence r rec ≤ 1
    unfold ruleConfidence
    split
    · exact ⟨lt_min one_pos (add_pos hb.1 (by norm_num)), min_le_left _ _⟩
    · exact hb

/-- Witness for C5 at the fallback finding of the unmatched record
`recHello`. -/
theorem C5_witness :
    fallbackFinding recHello ∈ classify DEFAULT_RULES recHello ∧
    0 < (fallbackFinding recHello).confidence ∧
    (fallbackFinding recHello).confidence ≤ 1 := by
  have hmem : fallbackFinding recHello ∈ classify DEFAULT_RULES recHello := by
    rw [show classify DEFAULT_RULES recHello = [fallbackFinding recHello] from rfl]
    exact List.mem_singleton.mpr rfl
  exact ⟨hmem, C5_confidence_in_unit recHello (fallbackFinding recHello) hmem⟩

/-- The timestamp of a parsed record is the resolved timestamp when one
exists and the current time otherwise. -/
theorem parse_fst (decode : String → Option JValue)
    (parseIso parseFloat : String → Option ℚ) (now : ℚ) (line : String) :
    (parse_log_line decode parseIso parseFloat now line).1 =
      (tsResolved decode parseIso parseFloat line).getD now := by
  unfold parse_log_line tsResolved
  cases hb : startsWithBrace (stripNL line) && endsWithBrace (stripNL line) with
  | false => simp [hb]
  | true =>
    cases hd : decode (stripNL line) with
    | none => simp [hb, hd]
    | some j => simp [hb, hd]

/-- C7: the record parser never fails — when a line that looks like a JSON
object fails to decode, the whole (newline-stripped) line becomes the
message and the raw payload is the synthetic single-key object
`{"raw": line}` with the timestamp defaulting to the current time; and in
general, whenever no timestamp field is resolved, the record's timestamp is
the current wall-clock time. -/
theorem C7_parser_fallbacks :
    (∀ (decode : String → Option JValue) (parseIso parseFloat : String → Option ℚ)
        (now : ℚ) (line : String),
      startsWithBrace (stripNL line) = true → endsWithBrace (stripNL line) = true →
      decode (stripNL line) = none →
      parse_log_line decode parseIso parseFloat now line =
        (now, stripNL line, [("raw", JValue.str (stripNL line))])) ∧
    (∀ (decode : String → Option JValue) (parseIso parseFloat : String → Option ℚ)
        (now : ℚ) (line : String),
      tsResolved decode parseIso parseFloat line = none →
      (parse_log_line decode parseIso parseFloat now line).1 = now) := by
  constructor
  · intro decode parseIso parseFloat now line h1 h2 hd
    unfold parse_log_line
    simp [h1, h2, hd]
  · intro decode parseIso parseFloat now line hts
    rw [parse_fst, hts]
    rfl

/-- Witness for C7 on the undecodable brace-delimited line
`"\x7bbad\x7d"`. -/
theorem C7_witness :
    startsWithBrace (stripNL "\x7bbad\x7d") = true ∧
    endsWithBrace (stripNL "\x7bbad\x7d") = true ∧
    parse_log_line (fun _ => none) (fun _ => none) (fun _ => none) 5 "\x7bbad\x7d" =
      (5, stripNL "\x7bbad\x7d", [("raw", JValue.str (stripNL "\x7bbad\x7d"))]) :=
  ⟨by decide, by decide,
    C7_parser_fallbacks.1 (fun _ => none) (fun _ => none) (fun _ => none) 5 "\x7bbad\x7d"
      (by decide) (by decide) rfl⟩

/-- C9 (code bug): `dump_findings_jsonl` appends the two-character
sequence backslash-`n` after each serialized finding (its source line 316
writes `+ "\\n"`), so the written file contains no newline character at
all — not the claimed newline-delimited one-finding-per-line format. -/
theorem C9_dump_has_no_newline :
    dump_findings_jsonl (fun _ => "x") [fallbackFinding recHello] = "x\\n" ∧
    (dump_findings_jsonl (fun _ => "x") [fallbackFinding recHello]).toList.contains
      (Char.ofNat 10) = false ∧
    (dump_findings_jsonl (fun _ => "x") [fallbackFinding recHello]).toList.contains
      (Char.ofNat 92) = true :=
  ⟨by decide, by decide, by decide⟩

/-- C10: a timestamp field normalizing to `0.0` is falsy, so the field
search continues past it; but if `0.0` is the value left when the loop
ends, the record keeps timestamp `0.0` — the wall-clock substitution
happens only when the timestamp is still unresolved (`None`). -/
theorem C10_zero_timestamp_kept :
    (∀ (decode : String → Option JValue) (parseIso parseFloat : String → Option ℚ)
        (now : ℚ) (line : String),
      tsResolved decode parseIso parseFloat line = some 0 →
      (parse_log_line decode parseIso parseFloat now line).1 = 0) ∧
    (∀ (coerce : JValue → Option ℚ) (raw : List (String × JValue)) (k : String)
        (ks : List String) (v : JValue) (acc : Option ℚ),
      jLookup raw k = some v → coerce v = some 0 →
      tsLoop coerce raw (k :: ks) acc = tsLoop coerce raw ks (some 0)) ∧
    (∀ now : ℚ,
      (parse_log_line decodeZeroThenTime (fun _ => none) (fun _ => none) now "\x7b\x7d").1 =
        1700000000 ∧
      (parse_log_line decodeZeroOnly (fun _ => none) (fun _ => none) now "\x7b\x7d").1 = 0) := by
  refine ⟨?_, ?_, fun now => ⟨rfl, rfl⟩⟩
  · intro decode parseIso parseFloat now line hts
    rw [parse_fst, hts]
    rfl
  · intro coerce raw k ks v acc hlk hcv
    simp [tsLoop, hlk, hcv, tsTruthy]

/-- Witness for C10: a payload whose only timestamp field is `0` parses
with timestamp `0.0` even when the current time is `999`. -/
theorem C10_witness :
    tsResolved decodeZeroOnly (fun _ => none) (fun _ => none) "\x7b\x7d" = some 0 ∧
    (parse_log_line decodeZeroOnly (fun _ => none) (fun _ => none) 999 "\x7b\x7d").1 = 0 :=
  ⟨rfl, C10_zero_timestamp_kept.1 decodeZeroOnly (fun _ => none) (fun _ => none) 999
    "\x7b\x7d" rfl⟩

/-! ## Dictionary lemmas for the result aggregator -/

/-- The single-pass update step of `_summarize`. -/
def summStep (acc : List (String × Nat) × List (String × Nat)) (fi : Finding) :
    List (String × Nat) × List (String × Nat) :=
  (dictIncr acc.1 fi.category, dictIncr acc.2 fi.severity)

/-- Unfolding lemma: `_summarize` is the fold of `summStep` from two empty dicts. -/
theorem summarize_eq_foldl (fs : List Finding) :
    summarize fs = fs.foldl summStep ([], []) := rfl

/-- Incrementing a key not held by the head leaves the head in place. -/
theorem dictIncr_cons_ne (p : String × Nat) (m : List (String × Nat)) (k : String)
    (h : ¬ p.1 = k) : dictIncr (p :: m) k = p :: dictIncr m k := by
  unfold dictIncr
  have hg : (p.1 == k) = false := beq_eq_false_iff_ne.mpr h
  rw [List.any_cons, hg, Bool.false_or]
  by_cases hm : (m.any fun q => q.1 == k) = true
  · rw [if_pos hm, if_pos hm, List.map_cons]
    simp [hg]
  · rw [if_neg hm, if_neg hm, List.cons_append]

/-- Incrementing the head's key bumps the head and maps the tail. -/
theorem dictIncr_cons_eq (p : String × Nat) (m : List (String × Nat)) (k : String)
    (h : p.1 = k) :
    dictIncr (p :: m) k =
      (p.1, p.2 + 1) :: m.map (fun q => if q.1 == k then (q.1, q.2 + 1) else q) := by
  unfold dictIncr
  have hg : (p.1 == k) = true := beq_iff_eq.mpr h
  rw [List.any_cons, hg, Bool.true_or, if_pos rfl, List.map_cons]
  simp [hg]

/-- Sum of the values of a cons. -/
theorem sumVals_cons (p : String × Nat) (m : List (String × Nat)) :
    sumVals (p :: m) = p.2 + sumVals m := by
  simp [sumVals]

/-- The bump map is the identity on a dict not holding the key. -/
theorem map_bump_eq_self (m : List (String × Nat)) (k : String)
    (h : ∀ q ∈ m, ¬ q.1 = k) :
    m.map (fun q => if q.1 == k then (q.1, q.2 + 1) else q) = m := by
  induction m with
  | nil => rfl
  | cons q m ih =>
    have hq : (q.1 == k) = false := beq_eq_false_iff_ne.mpr (h q (List.mem_cons_self q m))
    simp only [List.map_cons, hq, if_neg Bool.false_ne_true]
    rw [ih (fun r hr => h r (List.mem_cons_of_mem q hr))]

/-- The bump map keeps the key list unchanged. -/
theorem keys_map_bump (m : List (String × Nat)) (k : String) :
    (m.map (fun q => if q.1 == k then (q.1, q.2 + 1) else q)).map Prod.fst =
      m.map Prod.fst := by
  rw [List.map_map]
  apply List.map_congr_left
  intro q _
  by_cases hq : q.1 = k
  · simp [hq]
  · simp [hq]

/-- Lemma: `dictIncr` adds one to the total of the values when the keys are
distinct. -/
theorem sumVals_dictIncr (m : List (String × Nat)) (k : String)
    (h : (m.map Prod.fst).Nodup) : sumVals (dictIncr m k) = sumVals m + 1 := by
  induction m with
  | nil => simp [dictIncr, sumVals]
  | cons p m ih =>
    rw [List.map_cons, List.nodup_cons] at h
    by_cases hpk : p.1 = k
    · rw [dictIncr_cons_eq p m k hpk, sumVals_cons, sumVals_cons]
      have hnk : ∀ q ∈ m, ¬ q.1 = k := by
        intro q hq hqk
        exact h.1 (List.mem_map.mpr ⟨q, hq, by rw [hqk, hpk]⟩)
      rw [map_bump_eq_self m k hnk]
      omega
    · rw [dictIncr_cons_ne p m k hpk, sumVals_cons, sumVals_cons, ih h.2]
      omega

/-- Lookup on a cons. -/
theorem dictGet_cons (p : String × Nat) (m : List (String × Nat)) (k : String) :
    dictGet (p :: m) k = if p.1 == k then p.2 else dictGet m k := by
  unfold dictGet
  by_cases hpk : (p.1 == k) = true
  · simp [List.find?_cons, hpk]
  · simp only [Bool.not_eq_true] at hpk
    simp [List.find?_cons, hpk]

/-- The bump map at key `k'` does not change lookups of other keys. -/
theorem dictGet_map_bump_ne (m : List (String × Nat)) (k k' : String)
    (hkk : ¬ k = k') :
    dictGet (m.map (fun q => if q.1 == k' then (q.1, q.2 + 1) else q)) k =
      dictGet m k := by
  induction m with
  | nil => rfl
  | cons p m ih =>
    by_cases hpk : p.1 = k'
    · have hfp : (if (p.1 == k') = true then (p.1, p.2 + 1) else p) = (p.1, p.2 + 1) := by
        simp [hpk]
      rw [List.map_cons, hfp, dictGet_cons, dictGet_cons]
      have hne : (p.1 == k) = false := by
        rw [hpk]
        exact beq_eq_false_iff_ne.mpr fun h => hkk h.symm
      rw [if_neg (by simp [hne]), if_neg (by simp [hne]), ih]
    · have hfp : (if (p.1 == k') = true then (p.1, p.2 + 1) else p) = p := by
        simp [hpk]
      rw [List.map_cons, hfp, dictGet_cons, dictGet_cons, ih]

/-- The lookup after `dictIncr`: the incremented key gains one, all other
keys are unchanged. -/
theorem dictGet_dictIncr (m : List (String × Nat)) (k k' : String) :
    dictGet (dictIncr m k') k = dictGet m k + (if k = k' then 1 else 0) := by
  induction m with
  | nil =>
    by_cases h : k = k'
    · subst h
      simp [dictIncr, dictGet, List.find?]
    · have : (k' == k) = false := beq_eq_false_iff_ne.mpr (fun hk => h hk.symm)
      simp [dictIncr, dictGet, List.find?, this, h]
  | cons p m ih =>
    by_cases hpk : p.1 = k'
    · rw [dictIncr_cons_eq p m k' hpk, dictGet_cons, dictGet_cons]
      by_cases hk : k = k'
      · subst hk
        have hb : (p.1 == k) = true := beq_iff_eq.mpr hpk
        rw [if_pos hb, if_pos hb, if_pos rfl]
      · have hne : (p.1 == k) = false :=
          beq_eq_false_iff_ne.mpr fun h => hk (h.symm.trans hpk)
        rw [if_neg (by simp [hne]), if_neg (by simp [hne]),
          dictGet_map_bump_ne m k k' hk, if_neg hk]
        omega
    · rw [dictIncr_cons_ne p m k' hpk, dictGet_cons, dictGet_cons]
      by_cases hk2 : p.1 = k
      · have hnkk : ¬ k = k' := fun h => hpk (hk2.trans h)
        have hb : (p.1 == k) = true := beq_iff_eq.mpr hk2
        rw [if_pos hb, if_pos hb, if_neg hnkk]
        omega
      · have hb : (p.1 == k) = false := beq_eq_false_iff_ne.mpr hk2
        rw [if_neg (by simp [hb]), if_neg (by simp [hb]), ih]

/-- Incrementing keeps keys distinct. -/
theorem nodup_dictIncr (m : List (String × Nat)) (k : String)
    (h : (m.map Prod.fst).Nodup) : ((dictIncr m k).map Prod.fst).Nodup := by
  unfold dictIncr
  split
  · rw [keys_map_bump]
    exact h
  · rename_i hany
    rw [List.map_append, List.nodup_append]
    refine ⟨h, List.nodup_singleton _, fun a ha hb => ?_⟩
    rw [List.mem_singleton.mp hb] at ha
    obtain ⟨q, hq, hq2⟩ := List.mem_map.mp ha
    have hq3 : (m.any fun p => p.1 == k) = true :=
      List.any_eq_true.mpr ⟨q, hq, beq_iff_eq.mpr hq2⟩
    exact hany hq3

/-- The running invariant of `_summarize`'s single pass: starting from
dicts with distinct keys, the fold keeps keys distinct, adds the number of
findings to each total, and each lookup counts the matching findings. -/
theorem summ_fold (fs : List Finding) :
    ∀ (c s : List (String × Nat)),
      (c.map Prod.fst).Nodup → (s.map Prod.fst).Nodup →
      (((fs.foldl summStep (c, s)).1.map Prod.fst).Nodup ∧
        ((fs.foldl summStep (c, s)).2.map Prod.fst).Nodup) ∧
      (sumVals (fs.foldl summStep (c, s)).1 = sumVals c + fs.length ∧
        sumVals (fs.foldl summStep (c, s)).2 = sumVals s + fs.length) ∧
      (∀ k, dictGet (fs.foldl summStep (c, s)).1 k =
        dictGet c k + fs.countP (fun fi => fi.category == k)) ∧
      (∀ k, dictGet (fs.foldl summStep (c, s)).2 k =
        dictGet s k + fs.countP (fun fi => fi.severity == k)) := by
  induction fs with
  | nil =>
    intro c s hc hs
    exact ⟨⟨hc, hs⟩, ⟨by simp, by simp⟩, fun k => by simp, fun k => by simp⟩
  | cons fi fs ih =>
    intro c s hc hs
    rw [List.foldl_cons]
    dsimp only [summStep]
    have h := ih (dictIncr c fi.category) (dictIncr s fi.severity)
      (nodup_dictIncr c fi.category hc) (nodup_dictIncr s fi.severity hs)
    refine ⟨h.1, ⟨?_, ?_⟩, fun k => ?_, fun k => ?_⟩
    · rw [h.2.1.1, sumVals_dictIncr c fi.category hc, List.length_cons]
      omega
    · rw [h.2.1.2, sumVals_dictIncr s fi.severity hs, List.length_cons]
      omega
    · rw [h.2.2.1 k, dictGet_dictIncr, List.countP_cons]
      by_cases hk : k = fi.category
      · simp [hk]
        omega
      · have : (fi.category == k) = false :=
          beq_eq_false_iff_ne.mpr (fun h => hk h.symm)
        simp [hk, this]
    · rw [h.2.2.2 k, dictGet_dictIncr, List.countP_cons]
      by_cases hk : k = fi.severity
      · simp [hk]
        omega
      · have : (fi.severity == k) = false :=
          beq_eq_false_iff_ne.mpr (fun h => hk h.symm)
        simp [hk, this]

/-- Each lookup of `_summarize`'s category dict counts the findings with
that category (and similarly for severities). -/
theorem summarize_counts (fs : List Finding) :
    sumVals (summarize fs).1 = fs.length ∧ sumVals (summarize fs).2 = fs.length ∧
    (∀ k, dictGet (summarize fs).1 k = fs.countP (fun fi => fi.category == k)) ∧
    (∀ k, dictGet (summarize fs).2 k = fs.countP (fun fi => fi.severity == k)) := by
  have h := summ_fold fs [] [] (by simp) (by simp)
  have h0 : ∀ k, dictGet ([] : List (String × Nat)) k = 0 := fun _ => rfl
  have hs0 : sumVals ([] : List (String × Nat)) = 0 := rfl
  rw [summarize_eq_foldl]
  refine ⟨?_, ?_, fun k => ?_, fun k => ?_⟩
  · rw [h.2.1.1, hs0, Nat.zero_add]
  · rw [h.2.1.2, hs0, Nat.zero_add]
  · rw [h.2.2.1 k, h0, Nat.zero_add]
  · rw [h.2.2.2 k, h0, Nat.zero_add]

/-- C6: `_summarize` returns category and severity count maps whose values
each total the number of findings, and the maps (as key-to-count
functions, which is how Python compares dicts) are invariant under any
permutation of the input list. -/
theorem C6_summarize_totals_and_perm :
    ∀ (fs : List Finding),
      sumVals (summarize fs).1 = fs.length ∧
      sumVals (summarize fs).2 = fs.length ∧
      ∀ (fs' : List Finding), fs.Perm fs' →
        (∀ k, dictGet (summarize fs).1 k = dictGet (summarize fs').1 k) ∧
        (∀ k, dictGet (summarize fs).2 k = dictGet (summarize fs').2 k) := by
  intro fs
  refine ⟨(summarize_counts fs).1, (summarize_counts fs).2.1,
    fun fs' hperm => ⟨fun k => ?_, fun k => ?_⟩⟩
  · rw [(summarize_counts fs).2.2.1 k, (summarize_counts fs').2.2.1 k,
      hperm.countP_eq]
  · rw [(summarize_counts fs).2.2.2 k, (summarize_counts fs').2.2.2 k,
      hperm.countP_eq]

/-- Witness for C6 on a two-element list and its swap. -/
theorem C6_witness :
    sumVals (summarize [fallbackFinding recHello, fallbackFinding recHint]).1 = 2 ∧
    sumVals (summarize [fallbackFinding recHello, fallbackFinding recHint]).2 = 2 ∧
    dictGet (summarize [fallbackFinding recHello, fallbackFinding recHint]).1 "runbook" =
      dictGet (summarize [fallbackFinding recHint, fallbackFinding recHello]).1 "runbook" := by
  have h := C6_summarize_totals_and_perm [fallbackFinding recHello, fallbackFinding recHint]
  exact ⟨h.1, h.2.1,
    (h.2.2 [fallbackFinding recHint, fallbackFinding recHello] (List.Perm.swap _ _ _)).1
      "runbook"⟩

end AgentA
